import Mathlib

/-!
Verification of the client-side synchronization/caching core of the
Ollama todo-list application: the offline store and pending-operation
queue (src/unnamed/part_002, stores/useOfflineStore.ts), the optimistic
task mutations (src/frontend/src/hooks/useTasks.ts), the real-time sync
routine and the generic optimistic-update helper (src/unnamed/part_005),
and the task status toggle (src/unnamed/part_006).

Conventions: machine timestamps are Nat milliseconds; ISO date strings
are String; operation ids are String (the source builds them from
Date.now() and Math.random()).  Asynchronous network outcomes are
abstracted as Bool/Option parameters supplied by the environment.
-/

namespace TodoApp

/-- Priority enum (src/frontend/src/types/enums.ts). -/
inductive Priority
  | LOW
  | MEDIUM
  | HIGH
  | URGENT
deriving DecidableEq, Repr

/-- TaskStatus enum (src/frontend/src/types/enums.ts). -/
inductive TaskStatus
  | PENDING
  | IN_PROGRESS
  | COMPLETED
deriving DecidableEq, Repr

/-- MessageRole enum (src/frontend/src/types/enums.ts). -/
inductive MessageRole
  | USER
  | ASSISTANT
deriving DecidableEq, Repr

/-- Task record (src/frontend/src/types/task.ts, interface Task). -/
structure Task where
  id : Nat
  title : String
  description : Option String
  due_date : Option String
  priority : Priority
  category : Option String
  status : TaskStatus
  created_at : String
  updated_at : String
  calendar_event_id : Option String
  ai_generated : Bool
deriving DecidableEq, Repr

/-- Partial task update (src/frontend/src/types/task.ts, interface
TaskUpdate); an absent optional field leaves the task field unchanged. -/
structure TaskUpdate where
  title : Option String := none
  description : Option String := none
  due_date : Option String := none
  priority : Option Priority := none
  category : Option String := none
  status : Option TaskStatus := none
deriving DecidableEq, Repr

/-- AI task suggestion (src/frontend/src/types/task.ts, GeneratedTask);
the confidence score is modelled as a rational in place of a JS number. -/
structure GeneratedTask where
  title : String
  description : String
  suggested_due_date : Option String
  suggested_priority : Priority
  suggested_category : String
  confidence_score : Rat
deriving DecidableEq, Repr

/-- Chat message (src/frontend/src/types/chat.ts, interface ChatMessage). -/
structure ChatMessage where
  id : Nat
  content : String
  role : MessageRole
  timestamp : String
  generated_tasks : Option (List GeneratedTask)
deriving DecidableEq, Repr

/-- Offline operation kinds (src/unnamed/part_002, OfflineOperation.type). -/
inductive OperationType
  | CREATE_TASK
  | UPDATE_TASK
  | DELETE_TASK
  | COMPLETE_TASK
deriving DecidableEq, Repr

/-- A queued offline operation (src/unnamed/part_002, interface
OfflineOperation).  The source stores the payload as any; it is kept
abstract as a String here since no queue logic inspects it. -/
structure OfflineOperation where
  id : String
  type : OperationType
  data : String
  timestamp : Nat
  retryCount : Nat
deriving DecidableEq, Repr

/-- The zustand offline store state (src/unnamed/part_002, interface
OfflineState), data fields only; the actions are the functions below. -/
structure OfflineState where
  isOnline : Bool
  pendingOperations : List OfflineOperation
  cachedTasks : List Task
  cachedChatMessages : List ChatMessage
  lastSyncTimestamp : Nat
deriving DecidableEq, Repr

/-- setOnlineStatus action (src/unnamed/part_002 line 53). -/
def setOnlineStatus (online : Bool) (s : OfflineState) : OfflineState :=
  { s with isOnline := online }

/-- addPendingOperation action (src/unnamed/part_002 lines 57-68): appends
the operation with a fresh id, the current timestamp and retryCount 0.
The id produced by Date.now().toString() plus a random suffix and the
clock reading are passed in as freshId and now. -/
def addPendingOperation (opType : OperationType) (data : String)
    (freshId : String) (now : Nat) (s : OfflineState) : OfflineState :=
  { s with pendingOperations :=
      s.pendingOperations ++
        [{ id := freshId, type := opType, data := data,
           timestamp := now, retryCount := 0 }] }

/-- removePendingOperation action (src/unnamed/part_002 lines 70-73). -/
def removePendingOperation (id : String) (s : OfflineState) : OfflineState :=
  { s with pendingOperations :=
      s.pendingOperations.filter (fun op => op.id ≠ id) }

/-- incrementRetryCount action (src/unnamed/part_002 lines 75-80). -/
def incrementRetryCount (id : String) (s : OfflineState) : OfflineState :=
  { s with pendingOperations :=
      s.pendingOperations.map (fun op =>
        if op.id = id then { op with retryCount := op.retryCount + 1 } else op) }

/-- clearPendingOperations action (src/unnamed/part_002 lines 82-83). -/
def clearPendingOperations (s : OfflineState) : OfflineState :=
  { s with pendingOperations := [] }

/-- setLastSyncTimestamp action (src/unnamed/part_002 lines 116-117). -/
def setLastSyncTimestamp (timestamp : Nat) (s : OfflineState) : OfflineState :=
  { s with lastSyncTimestamp := timestamp }

/-- queueOperation (src/unnamed/part_002 lines 144-153): when offline the
operation is queued and true is returned; when online the store is left
unchanged and false is returned (execute immediately). -/
def queueOperation (opType : OperationType) (data : String)
    (freshId : String) (now : Nat) (s : OfflineState) : OfflineState × Bool :=
  if !s.isOnline then
    (addPendingOperation opType data freshId now s, true)
  else
    (s, false)

/-- One iteration of the processPendingOperations loop body
(src/unnamed/part_002 lines 162-177) on operation op: a successful
dispatch removes the entry; a failed dispatch removes it when its
retryCount (as captured at drain start) is already at least 3 and
otherwise increments the counter.  dispatch abstracts the awaited
processOperation API call, true meaning success. -/
def drainStep (dispatch : OfflineOperation → Bool) (s : OfflineState)
    (op : OfflineOperation) : OfflineState :=
  if dispatch op then
    removePendingOperation op.id s
  else if 3 ≤ op.retryCount then
    removePendingOperation op.id s
  else
    incrementRetryCount op.id s

/-- processPendingOperations (src/unnamed/part_002 lines 156-179): a no-op
when offline or when the queue is empty; otherwise the loop body runs
once for each queued operation, in queue order, over the snapshot of the
queue taken at call time. -/
def processPendingOperations (dispatch : OfflineOperation → Bool)
    (s : OfflineState) : OfflineState :=
  if !s.isOnline || s.pendingOperations.isEmpty then s
  else s.pendingOperations.foldl (drainStep dispatch) s

/-- processPendingOperations instrumented with the trace of dispatched
operation ids, in dispatch order; its first component is exactly
processPendingOperations. -/
def processPendingOperationsTrace (dispatch : OfflineOperation → Bool)
    (s : OfflineState) : OfflineState × List String :=
  if !s.isOnline || s.pendingOperations.isEmpty then (s, [])
  else s.pendingOperations.foldl
    (fun acc op => (drainStep dispatch acc.1 op, acc.2 ++ [op.id])) (s, [])

/-- The fate of one queue entry under one drain pass: dropped on success,
dropped on failure when its counter is already at least 3, kept with the
counter bumped otherwise. -/
def surviving (dispatch : OfflineOperation → Bool)
    (op : OfflineOperation) : Option OfflineOperation :=
  if dispatch op then none
  else if 3 ≤ op.retryCount then none
  else some { op with retryCount := op.retryCount + 1 }

/-- Paginated task list payload (src/frontend/src/types/api.ts,
PaginatedResponse over Task); total is an Int because the delete
mutation decrements it without a lower bound. -/
structure PaginatedTasks where
  items : List Task
  total : Int
  page : Nat
  size : Nat
  pages : Nat
deriving DecidableEq, Repr

/-- A React Query cache entry for a single-task detail query: the data
plus the staleness mark set by invalidateQueries.  setQueryData stores
fresh data (invalidated false); invalidateQueries keeps the data but
marks the entry stale, scheduling a refetch. -/
structure DetailEntry where
  data : Task
  invalidated : Bool
deriving DecidableEq, Repr

/-- A React Query cache entry for a paginated task-list query, keyed in
QueryCache by an abstract Nat standing for the (filters, page, size)
part of the structural key. -/
structure ListEntry where
  data : PaginatedTasks
  invalidated : Bool
deriving DecidableEq, Repr

/-- The slice of the React Query cache addressed by taskQueryKeys
(src/frontend/src/hooks/useTasks.ts lines 17-25): detail entries keyed
by task id and list entries keyed by an abstract list key. -/
structure QueryCache where
  details : List (Nat × DetailEntry)
  lists : List (Nat × ListEntry)
deriving DecidableEq, Repr

/-- queryClient.getQueryData on taskQueryKeys.detail id. -/
def getQueryDataDetail (id : Nat) (c : QueryCache) : Option Task :=
  (c.details.find? (fun p => p.1 = id)).map (fun p => p.2.data)

/-- queryClient.setQueryData on taskQueryKeys.detail id: replaces the
entry when the key exists and creates it otherwise, in both cases
storing fresh (non-stale) data. -/
def setQueryDataDetail (id : Nat) (t : Task) (c : QueryCache) : QueryCache :=
  if c.details.any (fun p => p.1 = id) then
    { c with details := c.details.map (fun p =>
        if p.1 = id then (p.1, { data := t, invalidated := false }) else p) }
  else
    { c with details := c.details ++ [(id, { data := t, invalidated := false })] }

/-- queryClient.removeQueries on taskQueryKeys.detail id. -/
def removeQueriesDetail (id : Nat) (c : QueryCache) : QueryCache :=
  { c with details := c.details.filter (fun p => p.1 ≠ id) }

/-- queryClient.invalidateQueries on taskQueryKeys.detail id: the data
stays in place, the entry is only marked stale. -/
def invalidateDetail (id : Nat) (c : QueryCache) : QueryCache :=
  { c with details := c.details.map (fun p =>
      if p.1 = id then (p.1, { p.2 with invalidated := true }) else p) }

/-- queryClient.invalidateQueries on the taskQueryKeys.lists prefix:
every list entry is marked stale, data untouched. -/
def invalidateAllLists (c : QueryCache) : QueryCache :=
  { c with lists := c.lists.map (fun p => (p.1, { p.2 with invalidated := true })) }

/-- queryClient.setQueriesData on the taskQueryKeys.lists prefix with an
updater: every list entry gets the updater applied to its payload (the
source updaters all return old unchanged when old is undefined, so only
present entries matter) and is stored fresh. -/
def setQueriesDataLists (f : PaginatedTasks → PaginatedTasks) (c : QueryCache) : QueryCache :=
  { c with lists := c.lists.map (fun p => (p.1, { data := f p.2.data, invalidated := false })) }

/-- Lookup of a cached list payload by its abstract key. -/
def getListData (k : Nat) (c : QueryCache) : Option PaginatedTasks :=
  (c.lists.find? (fun p => p.1 = k)).map (fun p => p.2.data)

/-- The JS spread update of a task, task spread then updates spread then
updated_at (src/frontend/src/hooks/useTasks.ts lines 83-87 and 100):
each update field present overrides, updated_at is set to the clock
reading now. -/
def applyTaskUpdate (t : Task) (u : TaskUpdate) (now : String) : Task :=
  { t with
    title := u.title.getD t.title
    description := u.description.orElse (fun _ => t.description)
    due_date := u.due_date.orElse (fun _ => t.due_date)
    priority := u.priority.getD t.priority
    category := u.category.orElse (fun _ => t.category)
    status := u.status.getD t.status
    updated_at := now }

/-- The optimistic-update callback of useUpdateTask
(src/frontend/src/hooks/useTasks.ts lines 78-106): the detail entry, when
present, gets the updates spread over it; every cached list gets the
matching item updated the same way.  The list update runs whether or not
a detail entry exists. -/
def updateTaskOptimistic (id : Nat) (u : TaskUpdate) (now : String)
    (c : QueryCache) : QueryCache :=
  let c1 :=
    match getQueryDataDetail id c with
    | some previousTask => setQueryDataDetail id (applyTaskUpdate previousTask u now) c
    | none => c
  setQueriesDataLists (fun old =>
    { old with items := old.items.map (fun task =>
        if task.id = id then applyTaskUpdate task u now else task) }) c1

/-- The rollback callback of useUpdateTask
(src/frontend/src/hooks/useTasks.ts lines 108-111): it invalidates the
detail entry and all list entries; it does not write any data back. -/
def updateTaskRollback (id : Nat) (c : QueryCache) : QueryCache :=
  invalidateAllLists (invalidateDetail id c)

/-- The onSuccess handler of useUpdateTask
(src/frontend/src/hooks/useTasks.ts lines 116-133): the server task
overwrites the detail entry and replaces the matching item in every
cached list wholesale. -/
def updateTaskOnSuccess (updatedTask : Task) (c : QueryCache) : QueryCache :=
  let c1 := setQueryDataDetail updatedTask.id updatedTask c
  setQueriesDataLists (fun old =>
    { old with items := old.items.map (fun task =>
        if task.id = updatedTask.id then updatedTask else task) }) c1

/-- The optimistic-update callback of useDeleteTask
(src/frontend/src/hooks/useTasks.ts lines 148-165): the task is filtered
out of every cached list with total decremented, then the detail entry is
removed. -/
def deleteTaskOptimistic (id : Nat) (c : QueryCache) : QueryCache :=
  removeQueriesDetail id
    (setQueriesDataLists (fun old =>
      { old with items := old.items.filter (fun task => task.id ≠ id),
                 total := old.total - 1 }) c)

/-- The rollback callback of useDeleteTask
(src/frontend/src/hooks/useTasks.ts lines 167-170): only the list
entries are invalidated. -/
def deleteTaskRollback (c : QueryCache) : QueryCache :=
  invalidateAllLists c

/-- The optimistic-update callback of useCompleteTask
(src/frontend/src/hooks/useTasks.ts lines 188-217): everything is inside
the if (previousTask) branch, so with no cached detail entry nothing at
all is changed, lists included; with one, the completed task overwrites
the detail entry and the matching item of every cached list. -/
def completeTaskOptimistic (id : Nat) (now : String) (c : QueryCache) : QueryCache :=
  match getQueryDataDetail id c with
  | none => c
  | some previousTask =>
    let completedTask := { previousTask with
      status := TaskStatus.COMPLETED, updated_at := now }
    setQueriesDataLists (fun old =>
      { old with items := old.items.map (fun task =>
          if task.id = id then completedTask else task) })
      (setQueryDataDetail id completedTask c)

/-- The rollback callback of useCompleteTask
(src/frontend/src/hooks/useTasks.ts lines 218-222): invalidates the
detail entry and all list entries, writing no data back. -/
def completeTaskRollback (id : Nat) (c : QueryCache) : QueryCache :=
  invalidateAllLists (invalidateDetail id c)

/-- The onSuccess handler of useCompleteTask
(src/frontend/src/hooks/useTasks.ts lines 227-243): same shape as the
update success handler, the server task replacing cache contents
wholesale. -/
def completeTaskOnSuccess (completedTask : Task) (c : QueryCache) : QueryCache :=
  let c1 := setQueryDataDetail completedTask.id completedTask c
  setQueriesDataLists (fun old =>
    { old with items := old.items.map (fun task =>
        if task.id = completedTask.id then completedTask else task) }) c1

/-- The onSuccess handler of useCreateTask
(src/frontend/src/hooks/useTasks.ts lines 57-63): list queries are
invalidated (to refetch) and the server task is written at its detail
key. -/
def createTaskOnSuccess (newTask : Task) (c : QueryCache) : QueryCache :=
  setQueryDataDetail newTask.id newTask (invalidateAllLists c)

/-- Modelled from the spec: withOptimisticUpdate lives in
src/frontend/src/lib/api.ts, which is absent from the sources; per spec
4.2 it applies the optimistic update synchronously, issues the network
call, and on failure invokes the rollback path before surfacing the
error.  The network outcome is abstracted as the Bool succeeds. -/
def withOptimisticUpdate (optimistic rollback : QueryCache → QueryCache)
    (succeeds : Bool) (c : QueryCache) : QueryCache :=
  let c1 := optimistic c
  if succeeds then c1 else rollback c1

/-- The cache trajectory of a failed useUpdateTask mutation: optimistic
update applied, network call fails, rollback callback runs. -/
def updateTaskFailed (id : Nat) (u : TaskUpdate) (now : String)
    (c : QueryCache) : QueryCache :=
  withOptimisticUpdate (updateTaskOptimistic id u now) (updateTaskRollback id) false c

/-- The cache trajectory of a failed useCompleteTask mutation. -/
def completeTaskFailed (id : Nat) (now : String) (c : QueryCache) : QueryCache :=
  withOptimisticUpdate (completeTaskOptimistic id now) (completeTaskRollback id) false c

/-- The cache trajectory of a failed useDeleteTask mutation. -/
def deleteTaskFailed (id : Nat) (c : QueryCache) : QueryCache :=
  withOptimisticUpdate (deleteTaskOptimistic id) deleteTaskRollback false c

/-- The data content of the detail entries, staleness marks erased. -/
def detailsData (c : QueryCache) : List (Nat × Task) :=
  c.details.map (fun p => (p.1, p.2.data))

/-- The data content of the list entries, staleness marks erased. -/
def listsData (c : QueryCache) : List (Nat × PaginatedTasks) :=
  c.lists.map (fun p => (p.1, p.2.data))

/-- A generic key-to-value query cache for the useOptimisticSync helper
(src/unnamed/part_005), which is generic over queryKey and payload type. -/
structure GenCache (κ α : Type) where
  entries : List (κ × α)
deriving DecidableEq, Repr

/-- queryClient.getQueryData on a generic key. -/
def genGet {κ α : Type} [DecidableEq κ] (k : κ) (c : GenCache κ α) : Option α :=
  (c.entries.find? (fun p => p.1 = k)).map (fun p => p.2)

/-- queryClient.setQueryData with a definite value: replace when present,
create when absent. -/
def genSetSome {κ α : Type} [DecidableEq κ] (k : κ) (v : α)
    (c : GenCache κ α) : GenCache κ α :=
  if c.entries.any (fun p => p.1 = k) then
    { entries := c.entries.map (fun p => if p.1 = k then (p.1, v) else p) }
  else
    { entries := c.entries ++ [(k, v)] }

/-- queryClient.setQueryData with a possibly-undefined value: React Query
leaves the cache untouched when the updater value is undefined. -/
def genSet {κ α : Type} [DecidableEq κ] (k : κ) (v : Option α)
    (c : GenCache κ α) : GenCache κ α :=
  match v with
  | none => c
  | some v => genSetSome k v c

/-- applyOptimisticUpdate (src/unnamed/part_005 lines 117-137): captures
previousData, writes the updater result at the key, and returns a
rollback that either runs the caller-supplied rollback or writes
previousData back (a no-op write when there was no previous data).  The
result pairs the post-update cache with the rollback function. -/
def applyOptimisticUpdate {κ α : Type} [DecidableEq κ] (queryKey : κ)
    (updater : Option α → α)
    (rollback : Option (GenCache κ α → GenCache κ α))
    (c : GenCache κ α) : GenCache κ α × (GenCache κ α → GenCache κ α) :=
  let previousData := genGet queryKey c
  let updated := genSetSome queryKey (updater previousData) c
  (updated, fun cache =>
    match rollback with
    | some rb => rb cache
    | none => genSet queryKey previousData cache)

/-- syncData (src/unnamed/part_005 lines 22-52): a no-op when offline or
disabled; otherwise it invalidates the task-list queries and records the
sync timestamp; when the refetch round fails it only reports a warning,
leaving the store untouched (the catch block changes no state).  fails
abstracts the rejection of the awaited invalidation round. -/
def syncData (enabled fails : Bool) (now : Nat)
    (st : OfflineState) (c : QueryCache) : OfflineState × QueryCache :=
  if !st.isOnline || !enabled then (st, c)
  else if fails then (st, c)
  else (setLastSyncTimestamp now st, invalidateAllLists c)

/-- The window online event handler (src/unnamed/part_002 lines 219-222):
set the store online, then drain the pending queue. -/
def handleOnline (dispatch : OfflineOperation → Bool) (s : OfflineState) : OfflineState :=
  processPendingOperations dispatch (setOnlineStatus true s)

/-- The window offline event handler (src/unnamed/part_002 lines 224-226). -/
def handleOffline (s : OfflineState) : OfflineState :=
  setOnlineStatus false s

/-- staleTime of the useTasks list query
(src/frontend/src/hooks/useTasks.ts line 36), in milliseconds. -/
def useTasksStaleTime : Nat := 5 * 60 * 1000

/-- staleTime of the useTask detail query
(src/frontend/src/hooks/useTasks.ts line 47), in milliseconds. -/
def useTaskStaleTime : Nat := 5 * 60 * 1000

/-- staleTime of the useChatMessages query
(src/unnamed/part_005 line 216), in milliseconds. -/
def useChatMessagesStaleTime : Nat := 2 * 60 * 1000

/-- A cache entry with the instant its data was fetched. -/
structure TimedEntry (α : Type) where
  value : α
  fetchedAt : Nat
deriving DecidableEq, Repr

/-- Modelled from the spec: the React Query staleness contract the hooks
configure (spec 4.1, get returns the cached value if present and not
expired, otherwise triggers a fetch); the library itself is outside the
sources.  Returns the served value and whether a network fetch
occurred. -/
def cacheGet {α : Type} (staleTime now : Nat) (entry : Option (TimedEntry α))
    (fetched : α) : α × Bool :=
  match entry with
  | some e => if now - e.fetchedAt < staleTime then (e.value, false) else (fetched, true)
  | none => (fetched, true)

/-- The status toggle inside handleToggleComplete (src/unnamed/part_006
lines 174-185): COMPLETED goes back to PENDING, anything else becomes
COMPLETED. -/
def toggleStatus (s : TaskStatus) : TaskStatus :=
  if s = TaskStatus.COMPLETED then TaskStatus.PENDING else TaskStatus.COMPLETED

/-- handleToggleComplete (src/unnamed/part_006 lines 174-185) as the
transformation it applies to the task list state. -/
def handleToggleComplete (id : Nat) (now : String) (tasks : List Task) : List Task :=
  tasks.map (fun task =>
    if task.id = id then
      { task with status := toggleStatus task.status, updated_at := now }
    else task)

/-- The persisted offline-state blob (src/unnamed/part_002 lines 119-128):
the partialize option keeps exactly these four fields. -/
structure PersistedOfflineState where
  pendingOperations : List OfflineOperation
  cachedTasks : List Task
  cachedChatMessages : List ChatMessage
  lastSyncTimestamp : Nat
deriving DecidableEq, Repr

/-- The partialize function of the persist middleware configuration
(src/unnamed/part_002 lines 122-127). -/
def partialize (s : OfflineState) : PersistedOfflineState :=
  { pendingOperations := s.pendingOperations
    cachedTasks := s.cachedTasks
    cachedChatMessages := s.cachedChatMessages
    lastSyncTimestamp := s.lastSyncTimestamp }

/-- The initial store state (src/unnamed/part_002 lines 44-50):
isOnline comes from navigator.onLine, the environment connectivity
signal, passed in here. -/
def initialOfflineState (navigatorOnLine : Bool) : OfflineState :=
  { isOnline := navigatorOnLine
    pendingOperations := []
    cachedTasks := []
    cachedChatMessages := []
    lastSyncTimestamp := 0 }

/-- Modelled from the spec: the zustand persist middleware rehydration
(the middleware is a library outside the sources) merges the persisted
blob over the initial state at startup load (spec 9, explicit save/load
over a defined subset of the state struct); fields outside the blob keep
their initial values, so isOnline keeps the environment signal. -/
def rehydrate (navigatorOnLine : Bool) (blob : PersistedOfflineState) : OfflineState :=
  { initialOfflineState navigatorOnLine with
    pendingOperations := blob.pendingOperations
    cachedTasks := blob.cachedTasks
    cachedChatMessages := blob.cachedChatMessages
    lastSyncTimestamp := blob.lastSyncTimestamp }

/-- A concrete task used in witnesses and counterexamples. -/
def sampleTask : Task :=
  { id := 1, title := "Write report", description := none, due_date := none,
    priority := Priority.MEDIUM, category := none, status := TaskStatus.PENDING,
    created_at := "2024-12-01T00:00:00.000Z", updated_at := "2024-12-01T00:00:00.000Z",
    calendar_event_id := none, ai_generated := false }

/-- A concrete one-item task page. -/
def samplePage : PaginatedTasks :=
  { items := [sampleTask], total := 1, page := 1, size := 20, pages := 1 }

/-- A concrete cache holding the sample task at its detail key and in one
list. -/
def sampleCache : QueryCache :=
  { details := [(1, { data := sampleTask, invalidated := false })],
    lists := [(0, { data := samplePage, invalidated := false })] }

/-- A concrete cache holding the sample task only in a list, with no
detail entry. -/
def listOnlyCache : QueryCache :=
  { details := [], lists := [(0, { data := samplePage, invalidated := false })] }

/-- A concrete pending operation with a fresh retry counter. -/
def sampleOp : OfflineOperation :=
  { id := "op1", type := OperationType.UPDATE_TASK, data := "", timestamp := 0,
    retryCount := 0 }

/-- A concrete online store whose queue holds the sample operation. -/
def sampleQueueState : OfflineState :=
  { isOnline := true, pendingOperations := [sampleOp], cachedTasks := [],
    cachedChatMessages := [], lastSyncTimestamp := 0 }

/-- A dispatch environment in which every network call fails. -/
def failAlways : OfflineOperation → Bool := fun _ => false

/-- Lookup through a key-preserving map commutes with the map. -/
lemma find_map_keyfun {κ α β : Type} [DecidableEq κ] (id : κ) (g : κ × α → κ × β)
    (hkey : ∀ p, (g p).1 = p.1) :
    ∀ l : List (κ × α),
      (l.map g).find? (fun p => p.1 = id) = (l.find? (fun p => p.1 = id)).map g := by
  intro l
  induction l with
  | nil => rfl
  | cons q t ih =>
    rw [List.map_cons, List.find?_cons, List.find?_cons]
    by_cases hq : q.1 = id
    · simp [hkey q, hq]
    · simp [hkey q, hq, ih]

/-- Appending a fresh binding behind bindings that all miss the key makes
the lookup find the fresh binding. -/
lemma find_absent_append {κ α : Type} [DecidableEq κ] (k : κ) (v : α) :
    ∀ l : List (κ × α), l.any (fun p => p.1 = k) = false →
      (l ++ [(k, v)]).find? (fun p => p.1 = k) = some (k, v) := by
  intro l h
  rw [List.find?_append]
  have hnone : l.find? (fun p => decide (p.1 = k)) = none := by
    rw [List.find?_eq_none]
    intro p hp
    have := List.any_eq_false.mp h p hp
    simpa using this
  rw [hnone]
  simp [List.find?_cons]

/-- The binding replacement used by genSetSome preserves keys. -/
lemma replace_keyfun {κ α : Type} [DecidableEq κ] (k : κ) (v : α) :
    ∀ p : κ × α, (if p.1 = k then (p.1, v) else p).1 = p.1 := by
  intro p
  split <;> rfl

/-- genGet after genSetSome at the same key yields the written value. -/
lemma genGet_set_self {κ α : Type} [DecidableEq κ] (k : κ) (v : α)
    (c : GenCache κ α) : genGet k (genSetSome k v c) = some v := by
  unfold genGet genSetSome
  by_cases h : c.entries.any (fun p => decide (p.1 = k)) = true
  · simp only [h, if_true]
    rw [find_map_keyfun k (fun p => if p.1 = k then (p.1, v) else p) (replace_keyfun k v)]
    obtain ⟨p, hp, hpk⟩ := List.any_eq_true.mp h
    have hs : (c.entries.find? (fun p => decide (p.1 = k))).isSome :=
      List.find?_isSome.mpr ⟨p, hp, hpk⟩
    obtain ⟨q, hq⟩ := Option.isSome_iff_exists.mp hs
    have hq1 : q.1 = k := by simpa using List.find?_some hq
    rw [hq]
    simp [hq1]
  · rw [Bool.not_eq_true] at h
    simp only [h, Bool.false_eq_true, if_false]
    rw [find_absent_append k v c.entries h]
    rfl

/-- genGet at a different key is unchanged by genSetSome. -/
lemma genGet_set_other {κ α : Type} [DecidableEq κ] {k k' : κ} (hne : k' ≠ k)
    (v : α) (c : GenCache κ α) : genGet k' (genSetSome k v c) = genGet k' c := by
  unfold genGet genSetSome
  by_cases h : c.entries.any (fun p => decide (p.1 = k)) = true
  · simp only [h, if_true]
    rw [find_map_keyfun k' (fun p => if p.1 = k then (p.1, v) else p) (replace_keyfun k v)]
    cases hq : c.entries.find? (fun p => decide (p.1 = k')) with
    | none => rfl
    | some q =>
      have hq1 : q.1 = k' := by simpa using List.find?_some hq
      have hqk : ¬ q.1 = k := by rw [hq1]; exact hne
      simp [hqk]
  · rw [Bool.not_eq_true] at h
    simp only [h, Bool.false_eq_true, if_false]
    rw [List.find?_append]
    have hsing : List.find? (fun p => decide (p.1 = k')) [(k, v)] = none := by
      simp [List.find?_cons, Ne.symm hne]
    rw [hsing]
    simp

/-- genSet with no prior data is the identity. -/
lemma genSet_none {κ α : Type} [DecidableEq κ] (k : κ) (c : GenCache κ α) :
    genSet k none c = c := rfl

/-- Replacing the value at a key present in the association list makes the
lookup find the replacement. -/
lemma find_replace_present {κ α : Type} [DecidableEq κ] (k : κ) (v : α)
    (l : List (κ × α)) (h : l.any (fun p => p.1 = k) = true) :
    (l.map (fun p => if p.1 = k then (p.1, v) else p)).find? (fun p => p.1 = k)
      = some (k, v) := by
  rw [find_map_keyfun k (fun p => if p.1 = k then (p.1, v) else p) (replace_keyfun k v)]
  obtain ⟨p, hp, hpk⟩ := List.any_eq_true.mp h
  have hs : (l.find? (fun p => decide (p.1 = k))).isSome :=
    List.find?_isSome.mpr ⟨p, hp, hpk⟩
  obtain ⟨q, hq⟩ := Option.isSome_iff_exists.mp hs
  have hq1 : q.1 = k := by simpa using List.find?_some hq
  rw [hq]
  simp [hq1]

/-- getQueryDataDetail after setQueryDataDetail at the same id yields the
written task. -/
lemma getQueryDataDetail_set_self (id : Nat) (t : Task) (c : QueryCache) :
    getQueryDataDetail id (setQueryDataDetail id t c) = some t := by
  unfold getQueryDataDetail setQueryDataDetail
  by_cases h : c.details.any (fun p => decide (p.1 = id)) = true
  · simp only [h, if_true]
    rw [find_replace_present id { data := t, invalidated := false } c.details h]
    rfl
  · rw [Bool.not_eq_true] at h
    simp only [h, Bool.false_eq_true, if_false]
    rw [find_absent_append id { data := t, invalidated := false } c.details h]
    rfl

/-- setQueryDataDetail leaves the list entries alone. -/
lemma setQueryDataDetail_lists (id : Nat) (t : Task) (c : QueryCache) :
    (setQueryDataDetail id t c).lists = c.lists := by
  unfold setQueryDataDetail
  split <;> rfl

/-- setQueriesDataLists leaves the detail entries alone. -/
lemma setQueriesDataLists_details (f : PaginatedTasks → PaginatedTasks)
    (c : QueryCache) : (setQueriesDataLists f c).details = c.details := rfl

/-- Detail lookups see through setQueriesDataLists. -/
lemma getQueryDataDetail_setQueriesDataLists (id : Nat)
    (f : PaginatedTasks → PaginatedTasks) (c : QueryCache) :
    getQueryDataDetail id (setQueriesDataLists f c) = getQueryDataDetail id c := rfl

/-- List lookups map through setQueriesDataLists. -/
lemma getListData_setQueriesDataLists (k : Nat) (f : PaginatedTasks → PaginatedTasks)
    (c : QueryCache) :
    getListData k (setQueriesDataLists f c) = (getListData k c).map f := by
  unfold getListData setQueriesDataLists
  rw [show ({ c with lists := c.lists.map (fun p =>
        (p.1, { data := f p.2.data, invalidated := false })) } : QueryCache).lists
      = c.lists.map (fun p => (p.1, { data := f p.2.data, invalidated := false }))
    from rfl]
  rw [find_map_keyfun k ((fun p => (p.1, { data := f p.2.data, invalidated := false }))
      : Nat × ListEntry → Nat × ListEntry) (fun p => rfl)]
  cases c.lists.find? (fun p => decide (p.1 = k)) <;> rfl

/-- List lookups see the same data through invalidateAllLists. -/
lemma getListData_invalidateAllLists (k : Nat) (c : QueryCache) :
    getListData k (invalidateAllLists c) = getListData k c := by
  unfold getListData invalidateAllLists
  rw [show ({ c with lists := c.lists.map (fun p =>
        (p.1, { p.2 with invalidated := true })) } : QueryCache).lists
      = c.lists.map (fun p => (p.1, { p.2 with invalidated := true })) from rfl]
  rw [find_map_keyfun k ((fun p => (p.1, { p.2 with invalidated := true }))
      : Nat × ListEntry → Nat × ListEntry) (fun p => rfl)]
  cases c.lists.find? (fun p => decide (p.1 = k)) <;> rfl

/-- The marking function of invalidateDetail preserves keys. -/
lemma invalidate_keyfun (id : Nat) :
    ∀ p : Nat × DetailEntry,
      (if p.1 = id then (p.1, { p.2 with invalidated := true }) else p).1 = p.1 := by
  intro p
  split <;> rfl

/-- Detail lookups see the same data through invalidateDetail. -/
lemma getQueryDataDetail_invalidateDetail (id id' : Nat) (c : QueryCache) :
    getQueryDataDetail id' (invalidateDetail id c) = getQueryDataDetail id' c := by
  unfold getQueryDataDetail invalidateDetail
  rw [show ({ c with details := c.details.map (fun p =>
        if p.1 = id then (p.1, { p.2 with invalidated := true }) else p) } : QueryCache).details
      = c.details.map (fun p =>
        if p.1 = id then (p.1, { p.2 with invalidated := true }) else p) from rfl]
  rw [find_map_keyfun id' ((fun p =>
      if p.1 = id then (p.1, { p.2 with invalidated := true }) else p)
      : Nat × DetailEntry → Nat × DetailEntry) (invalidate_keyfun id)]
  cases hq : c.details.find? (fun p => decide (p.1 = id')) with
  | none => rfl
  | some q =>
    by_cases hk : q.1 = id <;> simp [hk]

/-- Detail lookups see the same data through invalidateAllLists. -/
lemma getQueryDataDetail_invalidateAllLists (id : Nat) (c : QueryCache) :
    getQueryDataDetail id (invalidateAllLists c) = getQueryDataDetail id c := rfl

/-- invalidateDetail keeps all detail data in place. -/
lemma detailsData_invalidateDetail (id : Nat) (c : QueryCache) :
    detailsData (invalidateDetail id c) = detailsData c := by
  unfold detailsData invalidateDetail
  rw [show ({ c with details := c.details.map (fun p =>
        if p.1 = id then (p.1, { p.2 with invalidated := true }) else p) } : QueryCache).details
      = c.details.map (fun p =>
        if p.1 = id then (p.1, { p.2 with invalidated := true }) else p) from rfl]
  rw [List.map_map]
  refine List.map_congr_left ?_
  intro p _
  by_cases hk : p.1 = id <;> simp [hk, Function.comp]

/-- invalidateAllLists keeps all list data in place. -/
lemma listsData_invalidateAllLists (c : QueryCache) :
    listsData (invalidateAllLists c) = listsData c := by
  unfold listsData invalidateAllLists
  rw [show ({ c with lists := c.lists.map (fun p =>
        (p.1, { p.2 with invalidated := true })) } : QueryCache).lists
      = c.lists.map (fun p => (p.1, { p.2 with invalidated := true })) from rfl]
  rw [List.map_map]
  rfl

/-- Every list entry is marked stale by invalidateAllLists. -/
lemma invalidateAllLists_stale (c : QueryCache) :
    ∀ p ∈ (invalidateAllLists c).lists, p.2.invalidated = true := by
  intro p hp
  unfold invalidateAllLists at hp
  obtain ⟨q, _, rfl⟩ := List.mem_map.mp hp
  rfl

/-- List lookups see through setQueryDataDetail. -/
lemma getListData_setQueryDataDetail (k id : Nat) (t : Task) (c : QueryCache) :
    getListData k (setQueryDataDetail id t c) = getListData k c := by
  unfold getListData
  rw [setQueryDataDetail_lists]

/-- drainStep touches only the pendingOperations field of the store. -/
lemma drainStep_fields (dispatch : OfflineOperation → Bool) (s : OfflineState)
    (op : OfflineOperation) :
    (drainStep dispatch s op).isOnline = s.isOnline ∧
    (drainStep dispatch s op).cachedTasks = s.cachedTasks ∧
    (drainStep dispatch s op).cachedChatMessages = s.cachedChatMessages ∧
    (drainStep dispatch s op).lastSyncTimestamp = s.lastSyncTimestamp := by
  unfold drainStep removePendingOperation incrementRetryCount
  split
  · exact ⟨rfl, rfl, rfl, rfl⟩
  · split
    · exact ⟨rfl, rfl, rfl, rfl⟩
    · exact ⟨rfl, rfl, rfl, rfl⟩

/-- The drain loop never changes the connectivity flag. -/
lemma foldl_drainStep_isOnline (dispatch : OfflineOperation → Bool) :
    ∀ (ops : List OfflineOperation) (s : OfflineState),
      (ops.foldl (drainStep dispatch) s).isOnline = s.isOnline := by
  intro ops
  induction ops with
  | nil => intro s; rfl
  | cons op rest ih =>
    intro s
    rw [List.foldl_cons, ih]
    exact (drainStep_fields dispatch s op).1

/-- Effect of one loop iteration on a queue in which no other entry shares
the id of the entry being dispatched: the entry is replaced by its fate,
everything else and the ordering untouched. -/
lemma drainStep_queue (dispatch : OfflineOperation → Bool) (s : OfflineState)
    (op : OfflineOperation) (done rest : List OfflineOperation)
    (hq : s.pendingOperations = done ++ op :: rest)
    (hd : ∀ x ∈ done, x.id ≠ op.id) (hr : ∀ x ∈ rest, x.id ≠ op.id) :
    (drainStep dispatch s op).pendingOperations
      = done ++ (surviving dispatch op).toList ++ rest := by
  have hfd : done.filter (fun x => !decide (x.id = op.id)) = done :=
    List.filter_eq_self.mpr (fun x hx => by simp [hd x hx])
  have hfr : rest.filter (fun x => !decide (x.id = op.id)) = rest :=
    List.filter_eq_self.mpr (fun x hx => by simp [hr x hx])
  have hmd : done.map (fun x =>
      if x.id = op.id then { x with retryCount := x.retryCount + 1 } else x) = done := by
    have := List.map_congr_left (l := done)
      (f := fun x => if x.id = op.id then { x with retryCount := x.retryCount + 1 } else x)
      (g := id) (fun x hx => by simp [hd x hx])
    simpa using this
  have hmr : rest.map (fun x =>
      if x.id = op.id then { x with retryCount := x.retryCount + 1 } else x) = rest := by
    have := List.map_congr_left (l := rest)
      (f := fun x => if x.id = op.id then { x with retryCount := x.retryCount + 1 } else x)
      (g := id) (fun x hx => by simp [hr x hx])
    simpa using this
  by_cases h1 : dispatch op = true
  · simp only [drainStep, surviving, h1, if_true, removePendingOperation, hq,
      Option.toList_none, List.append_nil]
    rw [List.filter_append, List.filter_cons]
    simp [hfd, hfr]
  · rw [Bool.not_eq_true] at h1
    by_cases h2 : 3 ≤ op.retryCount
    · simp only [drainStep, surviving, h1, Bool.false_eq_true, if_false, h2, if_true,
        removePendingOperation, hq, Option.toList_none, List.append_nil]
      rw [List.filter_append, List.filter_cons]
      simp [hfd, hfr]
    · simp only [drainStep, surviving, h1, Bool.false_eq_true, if_false, h2,
        incrementRetryCount, hq, Option.toList_some]
      rw [List.map_append, List.map_cons]
      simp [hmd, hmr]

/-- The loop over a suffix ops of the queue, the prefix done already
processed and tail not yet reached, replaces each processed entry by its
fate in place, provided all ids are distinct. -/
lemma drain_fold (dispatch : OfflineOperation → Bool) :
    ∀ (ops done tail s : _),
      OfflineState.pendingOperations s = done ++ ops ++ tail →
      (done ++ ops ++ tail).Pairwise (fun a b => a.id ≠ b.id) →
      (ops.foldl (drainStep dispatch) s).pendingOperations
        = done ++ ops.filterMap (surviving dispatch) ++ tail := by
  intro ops
  induction ops with
  | nil =>
    intro done tail s hq hp
    simpa using hq
  | cons op rest ih =>
    intro done tail s hq hp
    rw [List.foldl_cons]
    have hq' : s.pendingOperations = done ++ op :: (rest ++ tail) := by
      simpa using hq
    have hp' : (done ++ op :: (rest ++ tail)).Pairwise (fun a b => a.id ≠ b.id) := by
      simpa using hp
    rw [List.pairwise_append] at hp'
    obtain ⟨hpd, hpc, hcross⟩ := hp'
    rw [List.pairwise_cons] at hpc
    obtain ⟨hop, hprt⟩ := hpc
    have hdone : ∀ x ∈ done, x.id ≠ op.id :=
      fun x hx => hcross x hx op (List.mem_cons_self op (rest ++ tail))
    have hstep := drainStep_queue dispatch s op done (rest ++ tail) hq'
      hdone (fun x hx => (hop x hx).symm)
    cases hsurv : surviving dispatch op with
    | none =>
      have hq2 : (drainStep dispatch s op).pendingOperations
          = done ++ rest ++ tail := by
        rw [hstep, hsurv]
        simp
      have hp2 : (done ++ rest ++ tail).Pairwise (fun a b => a.id ≠ b.id) := by
        refine List.Pairwise.sublist ?_ (by simpa using hp)
        simp only [List.append_assoc]
        exact (List.sublist_cons_self op (rest ++ tail)).append_left done
      have hres := ih done tail (drainStep dispatch s op) hq2 hp2
      rw [hres]
      simp [List.filterMap_cons, hsurv]
    | some op2 =>
      have hid : op2.id = op.id := by
        unfold surviving at hsurv
        split_ifs at hsurv
        injection hsurv with h
        rw [← h]
      have hq2 : (drainStep dispatch s op).pendingOperations
          = (done ++ [op2]) ++ rest ++ tail := by
        rw [hstep, hsurv]
        simp
      have hp2 : ((done ++ [op2]) ++ rest ++ tail).Pairwise (fun a b => a.id ≠ b.id) := by
        have hgoal : (done ++ op2 :: (rest ++ tail)).Pairwise (fun a b => a.id ≠ b.id) := by
          rw [List.pairwise_append]
          refine ⟨hpd, ?_, ?_⟩
          · rw [List.pairwise_cons]
            exact ⟨fun b hb => hid ▸ hop b hb, hprt⟩
          · intro a ha b hb
            rcases List.mem_cons.mp hb with hb1 | hb2
            · rw [hb1, hid]
              exact hcross a ha op (List.mem_cons_self op (rest ++ tail))
            · exact hcross a ha b (List.mem_cons_of_mem op hb2)
        simpa using hgoal
      have hres := ih (done ++ [op2]) tail (drainStep dispatch s op) hq2 hp2
      rw [hres]
      simp [List.filterMap_cons, hsurv]

/-- Inversion of a kept queue entry: it was dispatched, failed, and had a
retry counter below 3 at drain start. -/
lemma surviving_some {dispatch : OfflineOperation → Bool} {y x : OfflineOperation}
    (h : surviving dispatch y = some x) :
    dispatch y = false ∧ y.retryCount < 3
      ∧ x = { y with retryCount := y.retryCount + 1 } := by
  unfold surviving at h
  split_ifs at h with h1 h2
  injection h with h3
  refine ⟨by simpa using h1, Nat.not_le.mp h2, h3.symm⟩

/-- An entry that fails with its counter already at the ceiling is
dropped. -/
lemma surviving_fail_ge {dispatch : OfflineOperation → Bool} {op : OfflineOperation}
    (hfail : dispatch op = false) (hge : 3 ≤ op.retryCount) :
    surviving dispatch op = none := by
  simp [surviving, hfail, hge]

/-- An entry that fails below the ceiling is kept with the counter
bumped. -/
lemma surviving_fail_lt {dispatch : OfflineOperation → Bool} {op : OfflineOperation}
    (hfail : dispatch op = false) (hlt : op.retryCount < 3) :
    surviving dispatch op = some { op with retryCount := op.retryCount + 1 } := by
  simp [surviving, hfail, Nat.not_le.mpr hlt]

/-- Two queue members with the same id are the same entry when ids are
pairwise distinct. -/
lemma pairwise_id_inj : ∀ {l : List OfflineOperation},
    l.Pairwise (fun a b => a.id ≠ b.id) →
    ∀ {x y : OfflineOperation}, x ∈ l → y ∈ l → x.id = y.id → x = y := by
  intro l hp
  induction hp with
  | nil =>
    intro x y hx _ _
    cases hx
  | cons hrel _ ih =>
    intro x y hx hy hid
    rcases List.mem_cons.mp hx with rfl | hx2
    · rcases List.mem_cons.mp hy with rfl | hy2
      · rfl
      · exact absurd hid (hrel y hy2)
    · rcases List.mem_cons.mp hy with rfl | hy2
      · exact absurd hid.symm (hrel x hx2)
      · exact ih hx2 hy2 hid

/-- One whole drain over a queue with distinct ids replaces the queue by
the fates of its entries, in order. -/
lemma processPendingOperations_queue (dispatch : OfflineOperation → Bool)
    (s : OfflineState) (hon : s.isOnline = true)
    (hnd : s.pendingOperations.Pairwise (fun a b => a.id ≠ b.id)) :
    (processPendingOperations dispatch s).pendingOperations
      = s.pendingOperations.filterMap (surviving dispatch) := by
  unfold processPendingOperations
  by_cases he : s.pendingOperations.isEmpty = true
  · have he' : s.pendingOperations = [] := List.isEmpty_iff.mp he
    simp [hon, he, he']
  · rw [Bool.not_eq_true] at he
    simp only [hon, Bool.not_true, he, Bool.or_self, Bool.false_eq_true, if_false]
    have := drain_fold dispatch s.pendingOperations [] [] s (by simp) (by simpa using hnd)
    simpa using this

/-- The trace accumulator records ids in dispatch order. -/
lemma foldl_trace_snd (dispatch : OfflineOperation → Bool) :
    ∀ (ops : List OfflineOperation) (st : OfflineState) (tr : List String),
      (ops.foldl (fun acc op => (drainStep dispatch acc.1 op, acc.2 ++ [op.id]))
          (st, tr)).2
        = tr ++ ops.map (fun op => op.id) := by
  intro ops
  induction ops with
  | nil =>
    intro st tr
    simp
  | cons op rest ih =>
    intro st tr
    rw [List.foldl_cons, ih]
    simp

/-- The instrumented fold computes the same state as the plain fold. -/
lemma foldl_trace_fst (dispatch : OfflineOperation → Bool) :
    ∀ (ops : List OfflineOperation) (st : OfflineState) (tr : List String),
      (ops.foldl (fun acc op => (drainStep dispatch acc.1 op, acc.2 ++ [op.id]))
          (st, tr)).1
        = ops.foldl (drainStep dispatch) st := by
  intro ops
  induction ops with
  | nil =>
    intro st tr
    rfl
  | cons op rest ih =>
    intro st tr
    rw [List.foldl_cons, List.foldl_cons, ih]

/-- C2: the claim that an entry is removed exactly after 3 consecutive
failed drain attempts is false on the code: after three failing drains the
sample operation is still queued, with retryCount 3; only the fourth
failing drain removes it (the removal test reads the counter before the
increment). -/
theorem C2_counterexample :
    ((processPendingOperations failAlways (processPendingOperations failAlways
        (processPendingOperations failAlways sampleQueueState))).pendingOperations
      = [{ sampleOp with retryCount := 3 }])
    ∧ (processPendingOperations failAlways (processPendingOperations failAlways
        (processPendingOperations failAlways (processPendingOperations failAlways
          sampleQueueState)))).pendingOperations = [] := by
  decide

/-- C2 (amended): for a drain over a queue with pairwise-distinct ids, an
entry that fails with retryCount below 3 stays with the counter
incremented; an entry that fails with retryCount at least 3 (its fourth
consecutive failure) is removed and no entry with its id remains; every
entry of the resulting queue descends from a failed entry of the original
queue, so a removed entry never reappears. -/
theorem C2_retry_ceiling (dispatch : OfflineOperation → Bool) (s : OfflineState)
    (hon : s.isOnline = true)
    (hnd : s.pendingOperations.Pairwise (fun a b => a.id ≠ b.id)) :
    ((processPendingOperations dispatch s).pendingOperations
        = s.pendingOperations.filterMap (surviving dispatch))
    ∧ (∀ op ∈ s.pendingOperations, dispatch op = false → op.retryCount < 3 →
        { op with retryCount := op.retryCount + 1 }
          ∈ (processPendingOperations dispatch s).pendingOperations)
    ∧ (∀ op ∈ s.pendingOperations, dispatch op = false → 3 ≤ op.retryCount →
        ∀ x ∈ (processPendingOperations dispatch s).pendingOperations, x.id ≠ op.id)
    ∧ (∀ x ∈ (processPendingOperations dispatch s).pendingOperations,
        ∃ y ∈ s.pendingOperations, y.id = x.id ∧ dispatch y = false) := by
  have h0 := processPendingOperations_queue dispatch s hon hnd
  refine ⟨h0, ?_, ?_, ?_⟩
  · intro op hop hfail hlt
    rw [h0]
    exact List.mem_filterMap.mpr ⟨op, hop, surviving_fail_lt hfail hlt⟩
  · intro op hop hfail hge x hx hid
    rw [h0] at hx
    obtain ⟨y, hy, hsurv⟩ := List.mem_filterMap.mp hx
    obtain ⟨hyfail, hylt, hxy⟩ := surviving_some hsurv
    have hyid : y.id = op.id := by
      rw [← hid, hxy]
    have : y = op := pairwise_id_inj hnd hy hop hyid
    rw [this] at hylt
    exact absurd hge (Nat.not_le.mpr hylt)
  · intro x hx
    rw [h0] at hx
    obtain ⟨y, hy, hsurv⟩ := List.mem_filterMap.mp hx
    obtain ⟨hyfail, _, hxy⟩ := surviving_some hsurv
    exact ⟨y, hy, by rw [hxy], hyfail⟩

/-- C2 witness: the characterization instantiated at the sample queue
under an all-failing dispatch. -/
theorem C2_retry_ceiling_witness :
    (processPendingOperations failAlways sampleQueueState).pendingOperations
      = sampleQueueState.pendingOperations.filterMap (surviving failAlways) :=
  (C2_retry_ceiling failAlways sampleQueueState rfl (by decide)).1

/-- C3: a single drain over a queue with pairwise-distinct ids dispatches
exactly the queued operations, in FIFO order, each once; at the moment an
entry is attempted, every earlier successfully dispatched entry has
already been removed from the queue (the prefix left in the queue is
exactly the fates of the already-processed entries); and an entry
surviving into the next drain must have failed this one with its counter
below the ceiling. -/
theorem C3_drain_fifo (dispatch : OfflineOperation → Bool) (s : OfflineState)
    (hon : s.isOnline = true)
    (hnd : s.pendingOperations.Pairwise (fun a b => a.id ≠ b.id)) :
    ((processPendingOperationsTrace dispatch s).2
        = s.pendingOperations.map (fun op => op.id))
    ∧ ((processPendingOperationsTrace dispatch s).1
        = processPendingOperations dispatch s)
    ∧ (∀ pre op post, s.pendingOperations = pre ++ op :: post →
        (pre.foldl (drainStep dispatch) s).pendingOperations
          = pre.filterMap (surviving dispatch) ++ op :: post)
    ∧ (∀ op ∈ (processPendingOperations dispatch s).pendingOperations,
        ∃ y ∈ s.pendingOperations,
          y.id = op.id ∧ dispatch y = false ∧ y.retryCount < 3) := by
  refine ⟨?_, ?_, ?_, ?_⟩
  · unfold processPendingOperationsTrace
    by_cases he : s.pendingOperations.isEmpty = true
    · have he' : s.pendingOperations = [] := List.isEmpty_iff.mp he
      simp [hon, he, he']
    · rw [Bool.not_eq_true] at he
      simp only [hon, Bool.not_true, he, Bool.or_self, Bool.false_eq_true, if_false]
      simpa using foldl_trace_snd dispatch s.pendingOperations s []
  · unfold processPendingOperationsTrace processPendingOperations
    by_cases he : s.pendingOperations.isEmpty = true
    · simp [hon, he]
    · rw [Bool.not_eq_true] at he
      simp only [hon, Bool.not_true, he, Bool.or_self, Bool.false_eq_true, if_false]
      exact foldl_trace_fst dispatch s.pendingOperations s []
  · intro pre op post hsplit
    have := drain_fold dispatch pre [] (op :: post) s (by simpa using hsplit)
      (by simpa using hsplit ▸ hnd)
    simpa using this
  · intro op hop
    rw [processPendingOperations_queue dispatch s hon hnd] at hop
    obtain ⟨y, hy, hsurv⟩ := List.mem_filterMap.mp hop
    obtain ⟨hyfail, hylt, hxy⟩ := surviving_some hsurv
    exact ⟨y, hy, by rw [hxy], hyfail, hylt⟩

/-- C3 witness: the FIFO trace instantiated at the sample queue. -/
theorem C3_drain_fifo_witness :
    (processPendingOperationsTrace failAlways sampleQueueState).2
      = sampleQueueState.pendingOperations.map (fun op => op.id) :=
  (C3_drain_fifo failAlways sampleQueueState rfl (by decide)).1

/-- C6: syncData leaves the connectivity flag unchanged on every path,
the failure path included; the drain also never changes it; only the
window online/offline handlers write it, to true and false
respectively. -/
theorem C6_sync_connectivity :
    (∀ (enabled fails : Bool) (now : Nat) (st : OfflineState) (c : QueryCache),
        (syncData enabled fails now st c).1.isOnline = st.isOnline)
    ∧ (∀ (dispatch : OfflineOperation → Bool) (s : OfflineState),
        (processPendingOperations dispatch s).isOnline = s.isOnline)
    ∧ (∀ (dispatch : OfflineOperation → Bool) (s : OfflineState),
        (handleOnline dispatch s).isOnline = true)
    ∧ (∀ s : OfflineState, (handleOffline s).isOnline = false) := by
  have hdrain : ∀ (dispatch : OfflineOperation → Bool) (s : OfflineState),
      (processPendingOperations dispatch s).isOnline = s.isOnline := by
    intro dispatch s
    unfold processPendingOperations
    split
    · rfl
    · exact foldl_drainStep_isOnline dispatch s.pendingOperations s
  refine ⟨?_, hdrain, ?_, ?_⟩
  · intro enabled fails now st c
    unfold syncData
    split
    · rfl
    · split <;> rfl
  · intro dispatch s
    unfold handleOnline
    rw [hdrain]
    rfl
  · intro s
    rfl

/-- C7: the task-list and task-detail queries carry a 5-minute staleness
window and the chat-message query a 2-minute one, and a get within the
window serves the cached value without a network fetch. -/
theorem C7_staleness_windows :
    useTasksStaleTime = 5 * 60 * 1000
    ∧ useTaskStaleTime = 5 * 60 * 1000
    ∧ useChatMessagesStaleTime = 2 * 60 * 1000
    ∧ (∀ (α : Type) (staleTime now : Nat) (e : TimedEntry α) (fetched : α),
        now - e.fetchedAt < staleTime →
        cacheGet staleTime now (some e) fetched = (e.value, false)) := by
  refine ⟨rfl, rfl, rfl, ?_⟩
  intro α staleTime now e fetched h
  show (if now - e.fetchedAt < staleTime then (e.value, false) else (fetched, true))
    = (e.value, false)
  rw [if_pos h]

/-- C7 witness: a get 500 milliseconds after the fetch is served from the
cache under the 5-minute task window. -/
theorem C7_staleness_windows_witness :
    cacheGet useTasksStaleTime 1000 (some { value := 42, fetchedAt := 500 }) 7
      = (42, false) :=
  C7_staleness_windows.2.2.2 Nat useTasksStaleTime 1000
    { value := 42, fetchedAt := 500 } 7 (by decide)

/-- C8: queueOperation appends, when offline, exactly one operation with
retryCount 0 at the end of the queue and reports true (queued); when
online it leaves the store unchanged and reports false (execute
immediately). -/
theorem C8_queueOperation_offline (opType : OperationType)
    (data freshId : String) (now : Nat) (s : OfflineState) :
    queueOperation opType data freshId now s
      = if s.isOnline then (s, false)
        else ({ s with pendingOperations := s.pendingOperations ++
            [{ id := freshId, type := opType, data := data,
               timestamp := now, retryCount := 0 }] }, true) := by
  unfold queueOperation addPendingOperation
  cases h : s.isOnline <;> simp [h]

/-- C9: a task status is one of the three enum values, and the toggle
maps COMPLETED to PENDING and every other status to COMPLETED, so the
toggle handler keeps every task status within the enum. -/
theorem C9_toggle_status :
    (toggleStatus TaskStatus.COMPLETED = TaskStatus.PENDING)
    ∧ (∀ st : TaskStatus, st ≠ TaskStatus.COMPLETED →
        toggleStatus st = TaskStatus.COMPLETED)
    ∧ (∀ st : TaskStatus, st = TaskStatus.PENDING ∨ st = TaskStatus.IN_PROGRESS
        ∨ st = TaskStatus.COMPLETED)
    ∧ (∀ (id : Nat) (now : String) (tasks : List Task),
        ∀ t ∈ handleToggleComplete id now tasks,
          t.status = TaskStatus.PENDING ∨ t.status = TaskStatus.IN_PROGRESS
            ∨ t.status = TaskStatus.COMPLETED) := by
  have hall : ∀ st : TaskStatus, st = TaskStatus.PENDING
      ∨ st = TaskStatus.IN_PROGRESS ∨ st = TaskStatus.COMPLETED := by
    intro st
    cases st
    · exact Or.inl rfl
    · exact Or.inr (Or.inl rfl)
    · exact Or.inr (Or.inr rfl)
  refine ⟨rfl, ?_, hall, ?_⟩
  · intro st h
    cases st
    · rfl
    · rfl
    · exact absurd rfl h
  · intro id now tasks t _
    exact hall t.status

/-- C9 witness: toggling a PENDING task yields COMPLETED. -/
theorem C9_toggle_status_witness :
    toggleStatus TaskStatus.PENDING = TaskStatus.COMPLETED :=
  C9_toggle_status.2.1 TaskStatus.PENDING (by decide)

/-- C10: the persisted blob consists of exactly the four fields
pendingOperations, cachedTasks, cachedChatMessages and lastSyncTimestamp;
partialize never reads isOnline; after rehydration isOnline equals the
environment signal, independent of the blob, while the four persisted
fields come back intact. -/
theorem C10_persisted_fields :
    (∀ s : OfflineState,
        partialize s = (⟨s.pendingOperations, s.cachedTasks,
          s.cachedChatMessages, s.lastSyncTimestamp⟩ : PersistedOfflineState))
    ∧ (∀ (s : OfflineState) (b : Bool),
        partialize (setOnlineStatus b s) = partialize s)
    ∧ (∀ (onl : Bool) (blob : PersistedOfflineState),
        (rehydrate onl blob).isOnline = onl)
    ∧ (∀ (onl : Bool) (blob : PersistedOfflineState),
        partialize (rehydrate onl blob) = blob)
    ∧ (∀ onl : Bool, (initialOfflineState onl).isOnline = onl) :=
  ⟨fun _ => rfl, fun _ _ => rfl, fun _ _ => rfl, fun _ _ => rfl, fun _ => rfl⟩

/-- C1 fails as stated: after a failed complete mutation, the rollback
path (query invalidation) leaves the optimistically completed task in the
cache rather than restoring the pre-mutation snapshot. -/
theorem C1_counterexample :
    completeTaskFailed 1 "2024-12-02T00:00:00.000Z" sampleCache ≠ sampleCache
    ∧ getQueryDataDetail 1 sampleCache = some sampleTask
    ∧ sampleTask.status = TaskStatus.PENDING
    ∧ getQueryDataDetail 1
        (completeTaskFailed 1 "2024-12-02T00:00:00.000Z" sampleCache)
      = some { sampleTask with
                 status := TaskStatus.COMPLETED,
                 updated_at := "2024-12-02T00:00:00.000Z" } := by
  refine ⟨by decide, rfl, rfl, by decide⟩

/-- C1 (amended): the generic applyOptimisticUpdate helper with no custom
rollback restores, for a key that was present, the pre-mutation cache
pointwise; the task mutation hooks roll back by invalidation instead:
after a failed update, complete or delete, the cache data equals the
optimistically mutated data, with the list entries marked stale for
refetch rather than restored. -/
theorem C1_rollback_semantics :
    (∀ (α : Type) (k : Nat) (updater : Option α → α) (c : GenCache Nat α) (v : α),
        genGet k c = some v →
        ∀ k' : Nat,
          genGet k' ((applyOptimisticUpdate k updater none c).2
              ((applyOptimisticUpdate k updater none c).1))
            = genGet k' c)
    ∧ (∀ (id : Nat) (u : TaskUpdate) (now : String) (c : QueryCache),
        detailsData (updateTaskFailed id u now c)
            = detailsData (updateTaskOptimistic id u now c)
          ∧ listsData (updateTaskFailed id u now c)
              = listsData (updateTaskOptimistic id u now c)
          ∧ ∀ p ∈ (updateTaskFailed id u now c).lists, p.2.invalidated = true)
    ∧ (∀ (id : Nat) (now : String) (c : QueryCache),
        detailsData (completeTaskFailed id now c)
            = detailsData (completeTaskOptimistic id now c)
          ∧ listsData (completeTaskFailed id now c)
              = listsData (completeTaskOptimistic id now c)
          ∧ ∀ p ∈ (completeTaskFailed id now c).lists, p.2.invalidated = true)
    ∧ (∀ (id : Nat) (c : QueryCache),
        detailsData (deleteTaskFailed id c)
            = detailsData (deleteTaskOptimistic id c)
          ∧ listsData (deleteTaskFailed id c)
              = listsData (deleteTaskOptimistic id c)
          ∧ ∀ p ∈ (deleteTaskFailed id c).lists, p.2.invalidated = true) := by
  refine ⟨?_, ?_, ?_, ?_⟩
  · intro α k updater c v hv k'
    have hred : (applyOptimisticUpdate k updater none c).2
        ((applyOptimisticUpdate k updater none c).1)
        = genSet k (genGet k c) (genSetSome k (updater (genGet k c)) c) := rfl
    rw [hred, hv]
    show genGet k' (genSetSome k v (genSetSome k (updater (some v)) c))
      = genGet k' c
    by_cases hk : k' = k
    · subst hk
      rw [genGet_set_self, hv]
    · rw [genGet_set_other hk, genGet_set_other hk]
  · intro id u now c
    have hred : updateTaskFailed id u now c
        = invalidateAllLists (invalidateDetail id (updateTaskOptimistic id u now c)) := rfl
    refine ⟨?_, ?_, ?_⟩
    · rw [hred]
      have h1 : detailsData (invalidateAllLists
          (invalidateDetail id (updateTaskOptimistic id u now c)))
          = detailsData (invalidateDetail id (updateTaskOptimistic id u now c)) := rfl
      rw [h1, detailsData_invalidateDetail]
    · rw [hred, listsData_invalidateAllLists]
      rfl
    · rw [hred]
      exact invalidateAllLists_stale _
  · intro id now c
    have hred : completeTaskFailed id now c
        = invalidateAllLists (invalidateDetail id (completeTaskOptimistic id now c)) := rfl
    refine ⟨?_, ?_, ?_⟩
    · rw [hred]
      have h1 : detailsData (invalidateAllLists
          (invalidateDetail id (completeTaskOptimistic id now c)))
          = detailsData (invalidateDetail id (completeTaskOptimistic id now c)) := rfl
      rw [h1, detailsData_invalidateDetail]
    · rw [hred, listsData_invalidateAllLists]
      rfl
    · rw [hred]
      exact invalidateAllLists_stale _
  · intro id c
    have hred : deleteTaskFailed id c
        = invalidateAllLists (deleteTaskOptimistic id c) := rfl
    refine ⟨?_, ?_, ?_⟩
    · rw [hred]
      rfl
    · rw [hred, listsData_invalidateAllLists]
    · rw [hred]
      exact invalidateAllLists_stale _

/-- C1 witness: the generic helper rollback restores the sample cache at
its only key after an optimistic completion. -/
theorem C1_rollback_semantics_witness :
    genGet 1 ((applyOptimisticUpdate 1
        (fun _ => { sampleTask with status := TaskStatus.COMPLETED }) none
        (GenCache.mk [(1, sampleTask)])).2
      ((applyOptimisticUpdate 1
        (fun _ => { sampleTask with status := TaskStatus.COMPLETED }) none
        (GenCache.mk [(1, sampleTask)])).1))
      = genGet 1 (GenCache.mk [(1, sampleTask)]) :=
  C1_rollback_semantics.1 Task 1
    (fun _ => { sampleTask with status := TaskStatus.COMPLETED })
    (GenCache.mk [(1, sampleTask)]) sampleTask rfl 1

/-- C4 fails as stated: completing a task whose detail entry is not
cached leaves every cached list untouched, even when the task sits in a
cached list with a non-COMPLETED status. -/
theorem C4_counterexample :
    completeTaskOptimistic 1 "2024-12-02T00:00:00.000Z" listOnlyCache = listOnlyCache
    ∧ getListData 0 listOnlyCache = some samplePage
    ∧ sampleTask ∈ samplePage.items
    ∧ sampleTask.id = 1
    ∧ sampleTask.status ≠ TaskStatus.COMPLETED := by
  refine ⟨rfl, rfl, by decide, rfl, by decide⟩

/-- C4 (amended): the update mutation applies the change with a fresh
updated_at to the detail entry when present and to the matching item of
every cached list regardless; the complete mutation applies the completed
task to the detail entry and every cached list only when a detail entry
exists, and changes nothing at all otherwise. -/
theorem C4_optimistic_application :
    (∀ (id : Nat) (u : TaskUpdate) (now : String) (c : QueryCache) (prev : Task),
        getQueryDataDetail id c = some prev →
        getQueryDataDetail id (updateTaskOptimistic id u now c)
            = some (applyTaskUpdate prev u now)
          ∧ (applyTaskUpdate prev u now).updated_at = now)
    ∧ (∀ (id : Nat) (u : TaskUpdate) (now : String) (c : QueryCache)
          (k : Nat) (page : PaginatedTasks),
        getListData k c = some page →
        getListData k (updateTaskOptimistic id u now c)
          = some { page with items := page.items.map (fun t =>
              if t.id = id then applyTaskUpdate t u now else t) })
    ∧ (∀ (id : Nat) (now : String) (c : QueryCache) (prev : Task),
        getQueryDataDetail id c = some prev →
        getQueryDataDetail id (completeTaskOptimistic id now c)
            = some { prev with status := TaskStatus.COMPLETED, updated_at := now }
          ∧ ∀ (k : Nat) (page : PaginatedTasks), getListData k c = some page →
              getListData k (completeTaskOptimistic id now c)
                = some { page with items := page.items.map (fun t =>
                    if t.id = id then
                      { prev with status := TaskStatus.COMPLETED, updated_at := now }
                    else t) })
    ∧ (∀ (id : Nat) (now : String) (c : QueryCache),
        getQueryDataDetail id c = none → completeTaskOptimistic id now c = c) := by
  refine ⟨?_, ?_, ?_, ?_⟩
  · intro id u now c prev hprev
    constructor
    · simp only [updateTaskOptimistic, hprev]
      rw [getQueryDataDetail_setQueriesDataLists, getQueryDataDetail_set_self]
    · rfl
  · intro id u now c k page hpage
    cases hdet : getQueryDataDetail id c with
    | none =>
      simp only [updateTaskOptimistic, hdet]
      rw [getListData_setQueriesDataLists, hpage]
      rfl
    | some prev =>
      simp only [updateTaskOptimistic, hdet]
      rw [getListData_setQueriesDataLists, getListData_setQueryDataDetail, hpage]
      rfl
  · intro id now c prev hprev
    constructor
    · simp only [completeTaskOptimistic, hprev]
      rw [getQueryDataDetail_setQueriesDataLists, getQueryDataDetail_set_self]
    · intro k page hpage
      simp only [completeTaskOptimistic, hprev]
      rw [getListData_setQueriesDataLists, getListData_setQueryDataDetail, hpage]
      rfl
  · intro id now c hnone
    simp only [completeTaskOptimistic, hnone]

/-- C4 witness: completing the sample task, whose detail entry is cached,
rewrites its detail entry to the completed task. -/
theorem C4_optimistic_application_witness :
    getQueryDataDetail 1 (completeTaskOptimistic 1 "2024-12-02T00:00:00.000Z" sampleCache)
      = some { sampleTask with
                 status := TaskStatus.COMPLETED,
                 updated_at := "2024-12-02T00:00:00.000Z" } :=
  (C4_optimistic_application.2.2.1 1 "2024-12-02T00:00:00.000Z" sampleCache
    sampleTask rfl).1

/-- C5: after a successful update or complete, the server task is held
verbatim at its detail key and as every list item bearing its id, with no
field-wise merge; after a successful create, the server task is held at
its detail key, the list entries are all marked stale, and when no cached
list held the id before, none does after. -/
theorem C5_server_supersedes :
    (∀ (t : Task) (c : QueryCache),
        getQueryDataDetail t.id (updateTaskOnSuccess t c) = some t
          ∧ ∀ (k : Nat) (page : PaginatedTasks),
              getListData k (updateTaskOnSuccess t c) = some page →
              ∀ x ∈ page.items, x.id = t.id → x = t)
    ∧ (∀ (t : Task) (c : QueryCache),
        getQueryDataDetail t.id (completeTaskOnSuccess t c) = some t
          ∧ ∀ (k : Nat) (page : PaginatedTasks),
              getListData k (completeTaskOnSuccess t c) = some page →
              ∀ x ∈ page.items, x.id = t.id → x = t)
    ∧ (∀ (t : Task) (c : QueryCache),
        getQueryDataDetail t.id (createTaskOnSuccess t c) = some t
          ∧ (∀ p ∈ (createTaskOnSuccess t c).lists, p.2.invalidated = true)
          ∧ ((∀ (k : Nat) (page : PaginatedTasks), getListData k c = some page →
                ∀ x ∈ page.items, x.id ≠ t.id) →
              ∀ (k : Nat) (page : PaginatedTasks),
                getListData k (createTaskOnSuccess t c) = some page →
                ∀ x ∈ page.items, x.id ≠ t.id)) := by
  have hlist : ∀ (t : Task) (c1 : QueryCache) (k : Nat) (page : PaginatedTasks),
      getListData k (setQueriesDataLists (fun old =>
          { old with items := old.items.map (fun task =>
              if task.id = t.id then t else task) }) c1) = some page →
      ∀ x ∈ page.items, x.id = t.id → x = t := by
    intro t c1 k page hpage x hx hxid
    rw [getListData_setQueriesDataLists] at hpage
    cases hold : getListData k c1 with
    | none =>
      rw [hold] at hpage
      exact Option.noConfusion hpage
    | some page0 =>
      rw [hold] at hpage
      injection hpage with hpage
      rw [← hpage] at hx
      obtain ⟨y, _, hyx⟩ := List.mem_map.mp hx
      by_cases hy : y.id = t.id
      · rw [if_pos hy] at hyx
        exact hyx.symm
      · rw [if_neg hy] at hyx
        rw [← hyx] at hxid
        exact absurd hxid hy
  refine ⟨?_, ?_, ?_⟩
  · intro t c
    refine ⟨?_, hlist t (setQueryDataDetail t.id t c)⟩
    show getQueryDataDetail t.id (setQueriesDataLists _ (setQueryDataDetail t.id t c))
      = some t
    rw [getQueryDataDetail_setQueriesDataLists, getQueryDataDetail_set_self]
  · intro t c
    refine ⟨?_, hlist t (setQueryDataDetail t.id t c)⟩
    show getQueryDataDetail t.id (setQueriesDataLists _ (setQueryDataDetail t.id t c))
      = some t
    rw [getQueryDataDetail_setQueriesDataLists, getQueryDataDetail_set_self]
  · intro t c
    refine ⟨?_, ?_, ?_⟩
    · exact getQueryDataDetail_set_self t.id t (invalidateAllLists c)
    · intro p hp
      have hl : (createTaskOnSuccess t c).lists = (invalidateAllLists c).lists := by
        unfold createTaskOnSuccess
        rw [setQueryDataDetail_lists]
      rw [hl] at hp
      exact invalidateAllLists_stale c p hp
    · intro hno k page hpage x hx
      have hsame : getListData k (createTaskOnSuccess t c) = getListData k c := by
        unfold createTaskOnSuccess
        rw [getListData_setQueryDataDetail, getListData_invalidateAllLists]
      rw [hsame] at hpage
      exact hno k page hpage x hx

/-- C5 witness: the update success handler instantiated at the sample
cache, both at the detail key and inside the cached list. -/
theorem C5_server_supersedes_witness :
    (getQueryDataDetail sampleTask.id (updateTaskOnSuccess sampleTask sampleCache)
        = some sampleTask)
    ∧ sampleTask = sampleTask :=
  ⟨(C5_server_supersedes.1 sampleTask sampleCache).1,
   (C5_server_supersedes.1 sampleTask sampleCache).2 0 samplePage (by decide)
     sampleTask (by decide) rfl⟩



end TodoApp
